import Mathlib

/-
  Shallow embedding of the tron-monitor ingestion/decode pipeline:
  address codec (hex → base58check), TRC20 ABI parsing, contract decoding,
  block monitor gap recovery, event persistence, and worker-pool lifecycle.
-/

namespace Tron

/-- Strings are modelled as lists of characters (Go strings of ASCII hex/base58). -/
abbrev Str := List Char

/-! ### Hex digits -/

/-- Value of one hex digit, accepting both cases (Go `encoding/hex`, `strconv.ParseUint` base 16). -/
def hexDigitVal? (c : Char) : Option Nat :=
  if '0' ≤ c ∧ c ≤ '9' then some (c.toNat - '0'.toNat)
  else if 'a' ≤ c ∧ c ≤ 'f' then some (c.toNat - 'a'.toNat + 10)
  else if 'A' ≤ c ∧ c ≤ 'F' then some (c.toNat - 'A'.toNat + 10)
  else none

/-- Total hex digit value (0 for non-digits); used for the big-endian reading of a hex string. -/
def hexVal (c : Char) : Nat := (hexDigitVal? c).getD 0

/-- Big-endian unsigned-integer interpretation of a hex string. -/
def hexValue (s : Str) : Nat := s.foldl (fun a c => 16 * a + hexVal c) 0

/-- Digit-by-digit accumulation as in Go strconv.ParseUint base 16: fails on a non-hex char. -/
def hexNatAux (acc : Nat) : Str → Option Nat
  | [] => some acc
  | c :: cs =>
    match hexDigitVal? c with
    | some d => hexNatAux (16 * acc + d) cs
    | none => none

/-- Parse a hex string to a natural number, failing on any non-hex character. -/
def hexNat? (s : Str) : Option Nat := hexNatAux 0 s

/-- Go hex.DecodeString: pairs of hex chars to bytes; fails on odd length or a bad char. -/
def hexDecode : Str → Option (List Nat)
  | [] => some []
  | [_] => none
  | c1 :: c2 :: rest =>
    match hexDigitVal? c1, hexDigitVal? c2, hexDecode rest with
    | some h, some l, some bs => some ((16 * h + l) :: bs)
    | _, _, _ => none

/-! ### SHA-256 (bytes in, 32 bytes out) -/

/-- Truncate to a 32-bit word. -/
def m32 (n : Nat) : Nat := n &&& 4294967295

/-- 32-bit right rotation of a word. -/
def rotr32 (k n : Nat) : Nat := m32 ((n >>> k) ||| (n <<< (32 - k)))

/-- SHA-256 Ch function (bitwise NOT of a 32-bit word is XOR with the mask). -/
def shaCh (x y z : Nat) : Nat := (x &&& y) ^^^ ((x ^^^ 4294967295) &&& z)

/-- SHA-256 Maj function. -/
def shaMaj (x y z : Nat) : Nat := (x &&& y) ^^^ (x &&& z) ^^^ (y &&& z)

def smallSigma0 (x : Nat) : Nat := rotr32 7 x ^^^ rotr32 18 x ^^^ (x >>> 3)

def smallSigma1 (x : Nat) : Nat := rotr32 17 x ^^^ rotr32 19 x ^^^ (x >>> 10)

def bigSigma0 (x : Nat) : Nat := rotr32 2 x ^^^ rotr32 13 x ^^^ rotr32 22 x

def bigSigma1 (x : Nat) : Nat := rotr32 6 x ^^^ rotr32 11 x ^^^ rotr32 25 x

def sha256K : List Nat :=
  [1116352408, 1899447441, 3049323471, 3921009573, 961987163,
   1508970993, 2453635748, 2870763221, 3624381080, 310598401,
   607225278, 1426881987, 1925078388, 2162078206, 2614888103,
   3248222580, 3835390401, 4022224774, 264347078, 604807628,
   770255983, 1249150122, 1555081692, 1996064986, 2554220882,
   2821834349, 2952996808, 3210313671, 3336571891, 3584528711,
   113926993, 338241895, 666307205, 773529912, 1294757372,
   1396182291, 1695183700, 1986661051, 2177026350, 2456956037,
   2730485921, 2820302411, 3259730800, 3345764771, 3516065817,
   3600352804, 4094571909, 275423344, 430227734, 506948616,
   659060556, 883997877, 958139571, 1322822218, 1537002063,
   1747873779, 1955562222, 2024104815, 2227730452, 2361852424,
   2428436474, 2756734187, 3204031479, 3329325298]

def sha256Init : List Nat :=
  [1779033703, 3144134277, 1013904242, 2773480762,
   1359893119, 2600822924, 528734635, 1541459225]

/-- Standard SHA-256 padding to a multiple of 64 bytes with the bit length appended. -/
def sha256Pad (msg : List Nat) : List Nat :=
  let L := msg.length
  let bits := 8 * L
  msg ++ [0x80] ++ List.replicate ((119 - (L % 64)) % 64) 0 ++
    [(bits >>> 56) &&& 255, (bits >>> 48) &&& 255, (bits >>> 40) &&& 255, (bits >>> 32) &&& 255,
     (bits >>> 24) &&& 255, (bits >>> 16) &&& 255, (bits >>> 8) &&& 255, bits &&& 255]

/-- Split into 64-byte chunks (fuel keeps the recursion structural). -/
def chunks64Aux : Nat → List Nat → List (List Nat)
  | 0, _ => []
  | _ + 1, [] => []
  | fuel + 1, l => l.take 64 :: chunks64Aux fuel (l.drop 64)

def chunks64 (l : List Nat) : List (List Nat) := chunks64Aux (l.length + 1) l

/-- Bytes to big-endian 32-bit words. -/
def words16 : List Nat → List Nat
  | b0 :: b1 :: b2 :: b3 :: rest => (((b0 * 256 + b1) * 256 + b2) * 256 + b3) :: words16 rest
  | _ => []

/-- Extend the 16-word schedule by `fuel` further words. -/
def extendW : Nat → List Nat → List Nat
  | 0, w => w
  | fuel + 1, w =>
    let n := w.length
    extendW fuel (w ++ [m32 (smallSigma1 (w.getD (n - 2) 0) + w.getD (n - 7) 0 +
      smallSigma0 (w.getD (n - 15) 0) + w.getD (n - 16) 0)])

/-- Working state of one SHA-256 compression. -/
structure H8 where
  a : Nat
  b : Nat
  c : Nat
  d : Nat
  e : Nat
  f : Nat
  g : Nat
  h : Nat

/-- One SHA-256 round; `kw` is the round constant plus schedule word. -/
def shaRound (s : H8) (kw : Nat) : H8 :=
  let t1 := m32 (s.h + bigSigma1 s.e + shaCh s.e s.f s.g + kw)
  let t2 := m32 (bigSigma0 s.a + shaMaj s.a s.b s.c)
  ⟨m32 (t1 + t2), s.a, s.b, s.c, m32 (s.d + t1), s.e, s.f, s.g⟩

/-- Compress one 64-byte block into the running hash words. -/
def compressBlock (hs : List Nat) (block : List Nat) : List Nat :=
  let ws := extendW 48 (words16 block)
  let kws := (sha256K.zip ws).map (fun p => m32 (p.1 + p.2))
  let s0 : H8 := ⟨hs.getD 0 0, hs.getD 1 0, hs.getD 2 0, hs.getD 3 0,
                  hs.getD 4 0, hs.getD 5 0, hs.getD 6 0, hs.getD 7 0⟩
  let s := kws.foldl shaRound s0
  [m32 (s0.a + s.a), m32 (s0.b + s.b), m32 (s0.c + s.c), m32 (s0.d + s.d),
   m32 (s0.e + s.e), m32 (s0.f + s.f), m32 (s0.g + s.g), m32 (s0.h + s.h)]

/-- SHA-256 of a byte list, as 32 bytes. -/
def sha256 (msg : List Nat) : List Nat :=
  let hs := (chunks64 (sha256Pad msg)).foldl compressBlock sha256Init
  (hs.map (fun w => [(w >>> 24) &&& 255, (w >>> 16) &&& 255, (w >>> 8) &&& 255, w &&& 255])).flatten

/-! ### Base58 (btcsuite encoding) -/

def b58Alphabet : Str := "123456789ABCDEFGHJKLMNPQRSTUVWXYZabcdefghijkmnopqrstuvwxyz".toList

/-- Big-endian value of a byte string. -/
def bytesToNat (bs : List Nat) : Nat := bs.foldl (fun a b => 256 * a + b) 0

/-- Base-58 digits of `n`, most significant first (fuel keeps recursion structural). -/
def natToB58 : Nat → Nat → Str
  | 0, _ => []
  | fuel + 1, n => if n = 0 then [] else natToB58 fuel (n / 58) ++ [b58Alphabet.getD (n % 58) '1']

/-- btcsuite base58.Encode: a leading alphabet-zero per leading zero byte, then the digits. -/
def base58Encode (bs : List Nat) : Str :=
  List.replicate (bs.takeWhile (· == 0)).length '1' ++ natToB58 (8 * bs.length + 1) (bytesToNat bs)

/-! ### Address codec -/

/-- `startsWith p s` is true when `p` is an initial segment of `s`. -/
def startsWith : Str → Str → Bool
  | [], _ => true
  | _ :: _, [] => false
  | p :: ps, c :: cs => p == c && startsWith ps cs

/-- Go strings.TrimPrefix: drop `p` from the front of `s` when present. -/
def trimPre (p s : Str) : Str := if startsWith p s then s.drop p.length else s

/-- hexToTronAddress: hex-decode, append the first 4 bytes of the double SHA-256 as a
checksum, and base58-encode (fails exactly when hex decoding fails). -/
def hexToTronAddress (hexAddress : Str) : Option Str :=
  (hexDecode hexAddress).map fun addressBytes =>
    let checksum := (sha256 (sha256 addressBytes)).take 4
    base58Encode (addressBytes ++ checksum)

/-- convertHexToBase58: strip an optional 0x marker; return empty or T-leading input as is;
otherwise base58check-encode, falling back to the stripped input on a hex-decode failure. -/
def convertHexToBase58 (hexAddr0 : Str) : Str :=
  let hexAddr := trimPre ['0', 'x'] hexAddr0
  if hexAddr = [] then hexAddr
  else if startsWith ['T'] hexAddr then hexAddr
  else
    match hexToTronAddress hexAddr with
    | none => hexAddr
    | some t => t

/-! ### Data model -/

/-- Semi-structured provider payloads (the `interface\x7b\x7d` values Go's JSON decode yields);
numbers are rationals, the exact-arithmetic reading of Go's float64. -/
inductive JValue where
  | null
  | bool (b : Bool)
  | num (q : ℚ)
  | str (s : Str)
  | arr (xs : List JValue)
  | obj (fields : List (Str × JValue))

/-- Go map lookup on a decoded JSON object. -/
def jLookup : List (Str × JValue) → Str → Option JValue
  | [], _ => none
  | (k, v) :: rest, key => if k == key then some v else jLookup rest key

/-- Type assertion `.(map[string]interface\x7b\x7d)`. -/
def JValue.asObj? : JValue → Option (List (Str × JValue))
  | .obj fs => some fs
  | _ => none

/-- Type assertion `.(string)` with the ok flag dropped: zero value on failure. -/
def jStr : Option JValue → Str
  | some (.str s) => s
  | _ => []

/-- Type assertion `.(float64)` with the ok flag dropped: zero value on failure. -/
def jNum : Option JValue → ℚ
  | some (.num q) => q
  | _ => 0

/-- models.Contract. -/
structure Contract where
  type : Str
  parameter : JValue

/-- models.Transaction restricted to the fields the decoder reads. -/
structure Transaction where
  txID : Str
  contracts : List Contract

/-- models.BlockData restricted to the fields the decoder reads. -/
structure BlockData where
  height : Int
  timestamp : Int
deriving DecidableEq, Repr

/-- models.TransferEvent; float64 fields are modelled as exact rationals. -/
structure TransferEvent where
  source : Str
  destination : Str
  amount : ℚ
  fee : ℚ
  txHash : Str
  blockHeight : Int
  timestamp : Int
  confirmations : Int
  tokenType : Str
  contractAddress : Str
  assetName : Str
  isUSDT : Bool
  usdValue : ℚ
deriving DecidableEq, Repr

/-- The configuration fields the core reads. -/
structure Config where
  usdtContractAddress : Str
  usdtEnableMonitoring : Bool
  usdtDecimals : Nat
  maxBlockHeight : Int
  startBlockHeight : Int

/-- Decode failures (the error returns of the extract/parse functions). -/
inductive DecodeErr where
  | invalidParam
  | invalidValue
  | dataLen
  | addrLen
  | amountLen
  | amountParse
deriving DecidableEq, Repr

/-! ### Transfer decoder -/

/-- parseHexAmount: trim leading zeros, empty means 0, else ParseUint base 16 bit size 64
(fails on a non-hex char or a value of at least 2^64); the result is the float64 reading,
modelled as an exact rational. -/
def parseHexAmount (hexStr0 : Str) : Except DecodeErr ℚ :=
  let hexStr := hexStr0.dropWhile (· == '0')
  if hexStr = [] then .ok 0
  else
    match hexNat? hexStr with
    | some n => if n < 18446744073709551616 then .ok (n : ℚ) else .error .amountParse
    | none => .error .amountParse

/-- parseTRC20TransferData: recognize the a9059cbb transfer(address,uint256) call, rebuild
the destination from the first argument, parse the amount from the second, scale by the
configured decimals when the call is against the tracked USDT contract. -/
def parseTRC20TransferData (cfg : Config) (data0 ownerAddress contractAddress : Str)
    (tx : Transaction) (blockData : BlockData) (isUSDT : Bool) :
    Except DecodeErr (Option TransferEvent) :=
  if data0.length < 74 ∨ startsWith "a9059cbb".toList data0 = false then .ok none
  else if data0.length < 8 then .error .dataLen
  else
    let data1 := data0.drop 8
    if data1.length < 64 then .error .addrLen
    else
      let toAddressHex0 := data1.take 64
      let data2 := data1.drop 64
      if data2.length < 64 then .error .amountLen
      else
        let amountHex := data2.take 64
        let toAddressHex1 := toAddressHex0.dropWhile (· == '0')
        let toAddressHex :=
          if toAddressHex1.length < 40 then
            List.replicate (40 - toAddressHex1.length) '0' ++ toAddressHex1
          else toAddressHex1
        let fullAddressHex := '4' :: '1' :: toAddressHex
        let toAddress := convertHexToBase58 fullAddressHex
        match parseHexAmount amountHex with
        | .error e => .error e
        | .ok amount0 =>
          let amount := if isUSDT then amount0 / 10 ^ cfg.usdtDecimals else amount0
          let tokenType := if isUSDT then "USDT".toList else "TRC20".toList
          let fromAddress := convertHexToBase58 ownerAddress
          .ok (some
            { source := fromAddress
              destination := toAddress
              amount := amount
              fee := 0
              txHash := tx.txID
              blockHeight := blockData.height
              timestamp := blockData.timestamp
              confirmations := 0
              tokenType := tokenType
              contractAddress := contractAddress
              assetName := []
              isUSDT := isUSDT
              usdValue := amount })

/-- isUSDTContract. -/
def isUSDTContract (cfg : Config) (contractAddress : Str) : Bool :=
  contractAddress == cfg.usdtContractAddress

/-- Addresses whose statistics get updated are collected instead of performing the Redis
write: one entry per updateAddressStats call, in call order. -/
abbrev StatUpdates := List Str

/-- extractTRXTransfer: TransferContract decoding; leaf fields default to zero values,
the watch filter is disabled (commented out in the source), statistics update only for
watched endpoints. -/
def extractTRXTransfer (contract : Contract) (tx : Transaction) (blockData : BlockData)
    (watch : Str → Bool) : Except DecodeErr (Option TransferEvent × StatUpdates) :=
  match contract.parameter.asObj? with
  | none => .error .invalidParam
  | some paramData =>
    match (jLookup paramData "value".toList).bind JValue.asObj? with
    | none => .error .invalidValue
    | some valueData =>
      let ownerAddress := jStr (jLookup valueData "owner_address".toList)
      let toAddress := jStr (jLookup valueData "to_address".toList)
      let amount := jNum (jLookup valueData "amount".toList)
      let fromAddr := convertHexToBase58 ownerAddress
      let toAddr := convertHexToBase58 toAddress
      let stats := (if watch fromAddr then [fromAddr] else []) ++
        (if watch toAddr then [toAddr] else [])
      .ok (some
        { source := fromAddr
          destination := toAddr
          amount := amount / 1000000
          fee := 0
          txHash := tx.txID
          blockHeight := blockData.height
          timestamp := blockData.timestamp
          confirmations := 0
          tokenType := "TRX".toList
          contractAddress := []
          assetName := []
          isUSDT := false
          usdValue := 0 }, stats)

/-- extractTRC10Transfer: TransferAssetContract decoding; no event when neither converted
endpoint is watched. -/
def extractTRC10Transfer (contract : Contract) (tx : Transaction) (blockData : BlockData)
    (watch : Str → Bool) : Except DecodeErr (Option TransferEvent × StatUpdates) :=
  match contract.parameter.asObj? with
  | none => .error .invalidParam
  | some paramData =>
    match (jLookup paramData "value".toList).bind JValue.asObj? with
    | none => .error .invalidValue
    | some valueData =>
      let ownerAddressHex := jStr (jLookup valueData "owner_address".toList)
      let toAddressHex := jStr (jLookup valueData "to_address".toList)
      let amount := jNum (jLookup valueData "amount".toList)
      let assetName := jStr (jLookup valueData "asset_name".toList)
      let ownerAddress := convertHexToBase58 ownerAddressHex
      let toAddress := convertHexToBase58 toAddressHex
      if watch ownerAddress = false ∧ watch toAddress = false then .ok (none, [])
      else
        let stats := (if watch ownerAddress then [ownerAddress] else []) ++
          (if watch toAddress then [toAddress] else [])
        .ok (some
          { source := ownerAddress
            destination := toAddress
            amount := amount
            fee := 0
            txHash := tx.txID
            blockHeight := blockData.height
            timestamp := blockData.timestamp
            confirmations := 0
            tokenType := "TRC10".toList
            contractAddress := []
            assetName := assetName
            isUSDT := false
            usdValue := 0 }, stats)

/-- extractTRC20Transfer: TriggerSmartContract decoding; skips entirely when the tracked
USDT contract is hit but monitoring is disabled; filters on the decoded endpoints. -/
def extractTRC20Transfer (cfg : Config) (contract : Contract) (tx : Transaction)
    (blockData : BlockData) (watch : Str → Bool) :
    Except DecodeErr (Option TransferEvent × StatUpdates) :=
  match contract.parameter.asObj? with
  | none => .error .invalidParam
  | some paramData =>
    match (jLookup paramData "value".toList).bind JValue.asObj? with
    | none => .error .invalidValue
    | some valueData =>
      let ownerAddressHex := jStr (jLookup valueData "owner_address".toList)
      let contractAddressHex := jStr (jLookup valueData "contract_address".toList)
      let data := jStr (jLookup valueData "data".toList)
      let ownerAddress := convertHexToBase58 ownerAddressHex
      let contractAddress := convertHexToBase58 contractAddressHex
      let isUSDT := isUSDTContract cfg contractAddress
      if isUSDT = true ∧ cfg.usdtEnableMonitoring = false then .ok (none, [])
      else
        match parseTRC20TransferData cfg data ownerAddress contractAddress tx blockData isUSDT with
        | .error e => .error e
        | .ok none => .ok (none, [])
        | .ok (some transfer) =>
          if watch transfer.source = false ∧ watch transfer.destination = false then
            .ok (none, [])
          else
            let stats := (if watch transfer.source then [transfer.source] else []) ++
              (if watch transfer.destination then [transfer.destination] else [])
            .ok (some transfer, stats)

/-- extractTransferFromContract: dispatch on the contract type tag; unsupported types
yield no event. -/
def extractTransferFromContract (cfg : Config) (contract : Contract) (tx : Transaction)
    (blockData : BlockData) (watch : Str → Bool) :
    Except DecodeErr (Option TransferEvent × StatUpdates) :=
  if contract.type == "TransferContract".toList then
    extractTRXTransfer contract tx blockData watch
  else if contract.type == "TransferAssetContract".toList then
    extractTRC10Transfer contract tx blockData watch
  else if contract.type == "TriggerSmartContract".toList then
    extractTRC20Transfer cfg contract tx blockData watch
  else .ok (none, [])

/-- extractTransfers: per-contract failures are logged and skipped, never propagated;
collected events and statistics updates are returned in order. -/
def extractTransfers (cfg : Config) (tx : Transaction) (blockData : BlockData)
    (watch : Str → Bool) : List TransferEvent × StatUpdates :=
  if tx.contracts.isEmpty then ([], [])
  else
    tx.contracts.foldl
      (fun acc contract =>
        match extractTransferFromContract cfg contract tx blockData watch with
        | .error _ => acc
        | .ok (none, st) => (acc.1, acc.2 ++ st)
        | .ok (some ev, st) => (acc.1 ++ [ev], acc.2 ++ st))
      ([], [])

/-! ### Block monitor (gap recovery) -/

/-- Monitor state touched by one tick. -/
structure MonitorSt where
  lastProcessedBlock : Int
  processedBlocks : Int
deriving DecidableEq, Repr

/-- The integer heights `a, a+1, ..., b` (empty when `b < a`). -/
def intRange (a b : Int) : List Int :=
  (List.range (b + 1 - a).toNat).map (fun i => a + i)

/-- processLatestBlock: one monitor tick given the fetched head and a per-height fetch
(`none` models a fetch failure, which is skipped); returns the new state and the blocks
pushed to the queue, in push order. -/
def processLatestBlock (cfg : Config) (st : MonitorSt) (head : BlockData)
    (fetch : Int → Option BlockData) : MonitorSt × List BlockData :=
  if head.height ≤ st.lastProcessedBlock then (st, [])
  else if cfg.maxBlockHeight > 0 ∧ head.height > cfg.maxBlockHeight then (st, [])
  else if cfg.startBlockHeight > 0 ∧ head.height < cfg.startBlockHeight then (st, [])
  else
    let startBlock := st.lastProcessedBlock + 1
    let endBlock := head.height
    if startBlock < endBlock then
      let gap := endBlock - startBlock + 1
      let startBlock2 := if gap > 10 then endBlock - 10 + 1 else startBlock
      let pushed := (intRange startBlock2 endBlock).filterMap fetch
      ({ lastProcessedBlock := head.height,
         processedBlocks := st.processedBlocks + pushed.length + 1 }, pushed)
    else
      ({ lastProcessedBlock := head.height,
         processedBlocks := st.processedBlocks + 1 }, [head])

/-! ### Event store (Redis persistence) -/

/-- The Redis keyspace as seen by SaveTransferEvent: the per-key SET records, the capped
recent-transfers list, and the capped USDT list (newest first, as LPush builds them). -/
structure RedisStore where
  kv : Str → Option TransferEvent
  transfers : List TransferEvent
  usdtTransfers : List TransferEvent

/-- The empty store. -/
def emptyStore : RedisStore := ⟨fun _ => none, [], []⟩

/-- The SET key used for a transfer event. -/
def transferKey (ev : TransferEvent) : Str := "transfer:".toList ++ ev.txHash

/-- SaveTransferEvent: SET transfer:txHash (an overwrite), LPush + LTrim on the transfers
list (cap 10000), and the same on the USDT list when the event is a USDT transfer. -/
def saveTransferEvent (store : RedisStore) (ev : TransferEvent) : RedisStore :=
  { kv := fun k => if k = transferKey ev then some ev else store.kv k
    transfers := (ev :: store.transfers).take 10000
    usdtTransfers :=
      if ev.isUSDT then (ev :: store.usdtTransfers).take 10000 else store.usdtTransfers }

/-! ### Worker-pool lifecycle -/

/-- A block worker's lifecycle state. -/
structure BlockWorker where
  running : Bool
deriving DecidableEq, Repr

/-- BlockWorker.start: an early return when already running, else mark running. -/
def BlockWorker.start (w : BlockWorker) : BlockWorker :=
  if w.running then w else { running := true }

/-- BlockWorker.stop: an early return when already stopped, else mark stopped. -/
def BlockWorker.stop (w : BlockWorker) : BlockWorker :=
  if w.running = false then w else { running := false }

/-- The pool's lifecycle state. -/
structure BlockProcessorSt where
  running : Bool
  workers : List BlockWorker
deriving DecidableEq, Repr

/-- Lifecycle errors returned by the pool. -/
inductive LifecycleErr where
  | alreadyRunning
  | notRunning
deriving DecidableEq, Repr

/-- BlockProcessor.Start: an error when already running, else mark running and start
every worker. -/
def BlockProcessorSt.start (s : BlockProcessorSt) : Except LifecycleErr BlockProcessorSt :=
  if s.running then .error .alreadyRunning
  else .ok { running := true, workers := s.workers.map BlockWorker.start }

/-- BlockProcessor.Stop: an error when not running, else mark stopped and stop every
worker. -/
def BlockProcessorSt.stop (s : BlockProcessorSt) : Except LifecycleErr BlockProcessorSt :=
  if s.running = false then .error .notRunning
  else .ok { running := false, workers := s.workers.map BlockWorker.stop }

/-! ### Claim-side helpers and concrete inputs -/

/-- Left-pad a hex string with zeros to one 32-byte ABI word (64 hex chars). -/
def pad64 (s : Str) : Str := List.replicate (64 - s.length) '0' ++ s

/-- A TransferContract payload in the provider's shape. -/
def mkTRXContract (owner dst : Str) (amount : ℚ) : Contract :=
  { type := "TransferContract".toList
    parameter := .obj [("value".toList, .obj
      [("owner_address".toList, .str owner),
       ("to_address".toList, .str dst),
       ("amount".toList, .num amount)])] }

/-- A TransferAssetContract payload in the provider's shape. -/
def mkTRC10Contract (owner dst : Str) (amount : ℚ) (asset : Str) : Contract :=
  { type := "TransferAssetContract".toList
    parameter := .obj [("value".toList, .obj
      [("owner_address".toList, .str owner),
       ("to_address".toList, .str dst),
       ("amount".toList, .num amount),
       ("asset_name".toList, .str asset)])] }

/-- A TriggerSmartContract payload in the provider's shape. -/
def mkTRC20Contract (owner contractAddr data : Str) : Contract :=
  { type := "TriggerSmartContract".toList
    parameter := .obj [("value".toList, .obj
      [("owner_address".toList, .str owner),
       ("contract_address".toList, .str contractAddr),
       ("data".toList, .str data)])] }

/-- A TransferContract whose value object is present but empty: every leaf field missing. -/
def emptyValueTRXContract : Contract :=
  { type := "TransferContract".toList
    parameter := .obj [("value".toList, .obj [])] }

/-- The empty watch set. -/
def noWatch : Str → Bool := fun _ => false

/-- A sample configuration (the default USDT contract, monitoring on, 6 decimals). -/
def cfgEx : Config :=
  { usdtContractAddress := "TR7NHqjeKQxGTCi8q8ZY4pL8otSzgjLj6t".toList
    usdtEnableMonitoring := true
    usdtDecimals := 6
    maxBlockHeight := 0
    startBlockHeight := 0 }

/-- A sample enclosing transaction. -/
def txEx : Transaction := { txID := "tx1".toList, contracts := [] }

/-- A sample enclosing block. -/
def blkEx : BlockData := { height := 7, timestamp := 1000 }

/-- A sample 20-byte destination argument (the hex body of a well-known address). -/
def destHexEx : Str := "a614f803b6fd780986a42c78ec9c7f77e6ded13c".toList

/-- A well-formed transfer(address,uint256) call payload: amount 0xf4240 = 1000000. -/
def dataEx : Str := "a9059cbb".toList ++ pad64 destHexEx ++ pad64 "f4240".toList

/-- A transfer call whose amount argument is exactly 2^64 (17 significant hex digits). -/
def dataC1cex : Str :=
  "a9059cbb".toList ++ pad64 destHexEx ++ pad64 "10000000000000000".toList

/-- The event the decoder yields for `dataEx` (owner and contract address empty). -/
def evEx : TransferEvent :=
  { source := []
    destination := "TR7NHqjeKQxGTCi8q8ZY4pL8otSzgjLj6t".toList
    amount := 1000000
    fee := 0
    txHash := "tx1".toList
    blockHeight := 7
    timestamp := 1000
    confirmations := 0
    tokenType := "TRC20".toList
    contractAddress := []
    assetName := []
    isUSDT := false
    usdValue := 1000000 }

/-- A sample stored transfer event for the persistence claims. -/
def ev8 : TransferEvent :=
  { source := "a".toList
    destination := "b".toList
    amount := 5
    fee := 0
    txHash := "h1".toList
    blockHeight := 1
    timestamp := 2
    confirmations := 0
    tokenType := "TRX".toList
    contractAddress := []
    assetName := []
    isUSDT := false
    usdValue := 0 }

end Tron

deriving instance DecidableEq for Except

namespace Tron

/-! ### Reduction lemmas (definitional unfoldings of the decoder on shaped payloads) -/

/-- extractTRXTransfer on a shaped TransferContract, unfolded. -/
theorem extractTRX_mk (o t : Str) (a : ℚ) (tx : Transaction) (blk : BlockData)
    (watch : Str → Bool) :
    extractTRXTransfer (mkTRXContract o t a) tx blk watch =
      .ok (some
        { source := convertHexToBase58 o
          destination := convertHexToBase58 t
          amount := a / 1000000
          fee := 0
          txHash := tx.txID
          blockHeight := blk.height
          timestamp := blk.timestamp
          confirmations := 0
          tokenType := "TRX".toList
          contractAddress := []
          assetName := []
          isUSDT := false
          usdValue := 0 },
        (if watch (convertHexToBase58 o) then [convertHexToBase58 o] else []) ++
          (if watch (convertHexToBase58 t) then [convertHexToBase58 t] else [])) := rfl

/-- extractTRC10Transfer on a shaped TransferAssetContract, unfolded. -/
theorem extractTRC10_mk (o t : Str) (a : ℚ) (asset : Str) (tx : Transaction)
    (blk : BlockData) (watch : Str → Bool) :
    extractTRC10Transfer (mkTRC10Contract o t a asset) tx blk watch =
      (if watch (convertHexToBase58 o) = false ∧ watch (convertHexToBase58 t) = false then
        .ok (none, [])
      else
        .ok (some
          { source := convertHexToBase58 o
            destination := convertHexToBase58 t
            amount := a
            fee := 0
            txHash := tx.txID
            blockHeight := blk.height
            timestamp := blk.timestamp
            confirmations := 0
            tokenType := "TRC10".toList
            contractAddress := []
            assetName := asset
            isUSDT := false
            usdValue := 0 },
          (if watch (convertHexToBase58 o) then [convertHexToBase58 o] else []) ++
            (if watch (convertHexToBase58 t) then [convertHexToBase58 t] else []))) := rfl

/-- extractTRC20Transfer on a shaped TriggerSmartContract, unfolded down to the ABI parse. -/
theorem extractTRC20_mk (cfg : Config) (o c data : Str) (tx : Transaction)
    (blk : BlockData) (watch : Str → Bool) :
    extractTRC20Transfer cfg (mkTRC20Contract o c data) tx blk watch =
      (if isUSDTContract cfg (convertHexToBase58 c) = true ∧
          cfg.usdtEnableMonitoring = false then
        .ok (none, [])
      else
        match parseTRC20TransferData cfg data (convertHexToBase58 o)
            (convertHexToBase58 c) tx blk (isUSDTContract cfg (convertHexToBase58 c)) with
        | .error e => .error e
        | .ok none => .ok (none, [])
        | .ok (some transfer) =>
          if watch transfer.source = false ∧ watch transfer.destination = false then
            .ok (none, [])
          else
            .ok (some transfer,
              (if watch transfer.source then [transfer.source] else []) ++
                (if watch transfer.destination then [transfer.destination] else []))) := rfl

/-- extractTransferFromContract dispatches a TransferContract tag to extractTRXTransfer. -/
theorem extractFromContract_trxType (cfg : Config) (p : JValue) (tx : Transaction)
    (blk : BlockData) (watch : Str → Bool) :
    extractTransferFromContract cfg { type := "TransferContract".toList, parameter := p }
      tx blk watch =
      extractTRXTransfer { type := "TransferContract".toList, parameter := p } tx blk
        watch := rfl

/-! ### Claim theorems -/

/-- Claim C6: for every SmartContractTrigger whose data hex string does not begin with the
selector a9059cbb, or is not long enough (shorter than 74 hex characters), decoding returns
no event and no error escapes to the caller. -/
theorem c6_unrecognized_data_yields_no_event (cfg : Config) (data o c : Str)
    (tx : Transaction) (blk : BlockData) (u : Bool)
    (h : data.length < 74 ∨ startsWith "a9059cbb".toList data = false) :
    parseTRC20TransferData cfg data o c tx blk u = .ok none :=
  if_pos h

/-- Witness for C6 at the concrete two-character data string "ff". -/
theorem c6_witness :
    parseTRC20TransferData cfgEx "ff".toList [] [] txEx blkEx false = .ok none :=
  c6_unrecognized_data_yields_no_event cfgEx "ff".toList [] [] txEx blkEx false
    (Or.inl (by decide))

/-- Claim C9 counterexample: calling Start on an already-running pool (and Stop on an
already-stopped pool) returns an error instead of succeeding as an idempotent no-op. -/
theorem c9_counterexample :
    BlockProcessorSt.start { running := true, workers := [] } =
      .error LifecycleErr.alreadyRunning ∧
    BlockProcessorSt.stop { running := false, workers := [] } =
      .error LifecycleErr.notRunning :=
  ⟨rfl, rfl⟩

/-- Claim C9 amended: per worker, start and stop are idempotent no-ops when already in the
target state; pool-wide, Start on a running pool and Stop on a stopped pool return an error
(leaving the state unchanged) rather than succeeding. -/
theorem c9_amended_lifecycle (w : BlockWorker) (ws : List BlockWorker) :
    BlockWorker.start (BlockWorker.start w) = BlockWorker.start w ∧
    BlockWorker.stop (BlockWorker.stop w) = BlockWorker.stop w ∧
    BlockWorker.start { running := true } = { running := true } ∧
    BlockWorker.stop { running := false } = { running := false } ∧
    BlockProcessorSt.start { running := true, workers := ws } =
      .error LifecycleErr.alreadyRunning ∧
    BlockProcessorSt.stop { running := false, workers := ws } =
      .error LifecycleErr.notRunning := by
  obtain ⟨r⟩ := w
  cases r <;> exact ⟨rfl, rfl, rfl, rfl, rfl, rfl⟩

/-- Claim C8 counterexample: saving the same event twice leaves two copies on the
recent-transfers list, not one logical record. -/
theorem c8_counterexample :
    (saveTransferEvent (saveTransferEvent emptyStore ev8) ev8).transfers = [ev8, ev8] ∧
    (saveTransferEvent (saveTransferEvent emptyStore ev8) ev8).transfers ≠ [ev8] :=
  ⟨rfl, by decide⟩

/-- Claim C8 amended: the keyed record (keyed by txHash alone) is idempotently overwritten
— re-saving leaves exactly the one keyed record — while each save also prepends one copy to
the capped recent-transfers list, so a double save leaves two list entries. -/
theorem c8_amended_keyed_overwrite (s : RedisStore) (ev : TransferEvent) :
    (saveTransferEvent (saveTransferEvent s ev) ev).kv (transferKey ev) = some ev ∧
    (saveTransferEvent (saveTransferEvent s ev) ev).transfers.take 2 = [ev, ev] := by
  constructor
  · simp [saveTransferEvent]
  · simp [saveTransferEvent, List.take_take]

/-- Claim C7 counterexample: an input that fails hex decoding is not always returned
unchanged — a 0x-marked non-hex input comes back with the marker stripped. -/
theorem c7_counterexample :
    convertHexToBase58 "0xzz".toList = "zz".toList ∧ "zz".toList ≠ "0xzz".toList :=
  ⟨rfl, by decide⟩

/-- Claim C7 amended: the codec first strips an optional 0x marker; a display-shaped input
(34 chars, leading T) is returned unchanged and re-applying the codec to it is a no-op; the
empty input is returned unchanged; an unmarked input that fails hex decoding is returned
unchanged (marked inputs come back with the marker stripped). -/
theorem c7_amended_codec_idempotent (s t : Str)
    (hs34 : s.length = 34) (hsT : s.take 1 = ['T'])
    (ht0 : startsWith ['0', 'x'] t = false) (htd : hexDecode t = none) :
    convertHexToBase58 s = s ∧
    convertHexToBase58 (convertHexToBase58 s) = convertHexToBase58 s ∧
    convertHexToBase58 ([] : Str) = [] ∧
    convertHexToBase58 t = t := by
  obtain (_ | ⟨c, cs⟩) := s
  · simp at hs34
  · simp only [List.take_succ_cons, List.take_zero, List.cons.injEq] at hsT
    obtain ⟨rfl, -⟩ := hsT
    refine ⟨rfl, rfl, rfl, ?_⟩
    unfold convertHexToBase58 trimPre
    rw [ht0]
    simp only [Bool.false_eq_true, if_false]
    split
    · rfl
    · split
      · rfl
      · simp [hexToTronAddress, htd]

/-- Witness for C7 at a concrete display address, the empty string, and "zz". -/
theorem c7_witness :
    convertHexToBase58 "TR7NHqjeKQxGTCi8q8ZY4pL8otSzgjLj6t".toList =
      "TR7NHqjeKQxGTCi8q8ZY4pL8otSzgjLj6t".toList ∧
    convertHexToBase58 (convertHexToBase58 "TR7NHqjeKQxGTCi8q8ZY4pL8otSzgjLj6t".toList) =
      convertHexToBase58 "TR7NHqjeKQxGTCi8q8ZY4pL8otSzgjLj6t".toList ∧
    convertHexToBase58 ([] : Str) = [] ∧
    convertHexToBase58 "zz".toList = "zz".toList :=
  c7_amended_codec_idempotent "TR7NHqjeKQxGTCi8q8ZY4pL8otSzgjLj6t".toList "zz".toList
    (by decide) (by decide) (by decide) (by decide)

/-- Claim C3: for every valid NativeTransfer contract whose amount parameter is an integer
A, the decoded event's amount equals A / 1000000 exactly (float64 arithmetic modelled as
exact rationals). -/
theorem c3_native_amount_scaling (owner dst : Str) (A : ℤ) (tx : Transaction)
    (blk : BlockData) (watch : Str → Bool) :
    ∃ ev st, extractTRXTransfer (mkTRXContract owner dst (A : ℚ)) tx blk watch =
      .ok (some ev, st) ∧ ev.amount = (A : ℚ) / 1000000 :=
  ⟨_, _, extractTRX_mk owner dst (A : ℚ) tx blk watch, rfl⟩

/-- Claim C10: every event emitted by the TRC20 data parser has usdValue equal to its
amount, including non-tracked (non-USDT) contract-token events with the raw amount. -/
theorem c10_usd_value_equals_amount (cfg : Config) (data o c : Str) (tx : Transaction)
    (blk : BlockData) (u : Bool) (ev : TransferEvent)
    (h : parseTRC20TransferData cfg data o c tx blk u = .ok (some ev)) :
    ev.usdValue = ev.amount := by
  unfold parseTRC20TransferData at h
  simp only [] at h
  repeat' split at h
  all_goals
    first
      | (simp only [Except.ok.injEq, Option.some.injEq] at h
         subst h
         rfl)
      | simp at h

set_option maxRecDepth 200000 in
/-- Witness for C10 at the concrete non-USDT parse of `dataEx`. -/
theorem c10_witness : evEx.usdValue = evEx.amount :=
  c10_usd_value_equals_amount cfgEx dataEx [] [] txEx blkEx false evEx (by decide)

/-- Claim C5 counterexample: a NativeTransfer whose value object is present but misses
every required leaf field (owner_address, to_address, amount) still produces an event —
decoding does not fail for that contract. -/
theorem c5_counterexample :
    ∃ ev st, extractTRXTransfer emptyValueTRXContract txEx blkEx noWatch =
      .ok (some ev, st) :=
  ⟨_, _, rfl⟩

/-- Claim C5 amended: a missing or mistyped parameters map or value map is a decode error
for that contract (no event), and such per-contract errors never fail the enclosing
transaction; but missing or mistyped leaf fields are silently zero-valued — a
NativeTransfer with an empty value object still yields an event with empty addresses and
zero amount. -/
theorem c5_amended_parameter_validation (tx : Transaction) (blk : BlockData)
    (watch : Str → Bool) (p : JValue) (hp : p.asObj? = none)
    (flds : List (Str × JValue))
    (hv : (jLookup flds "value".toList).bind JValue.asObj? = none)
    (cfg : Config) (txid owner dst : Str) (a : ℚ) :
    extractTRXTransfer { type := "TransferContract".toList, parameter := p } tx blk watch =
      .error DecodeErr.invalidParam ∧
    extractTRXTransfer { type := "TransferContract".toList, parameter := .obj flds } tx blk
      watch = .error DecodeErr.invalidValue ∧
    extractTRC10Transfer { type := "TransferAssetContract".toList, parameter := p } tx blk
      watch = .error DecodeErr.invalidParam ∧
    extractTRC10Transfer { type := "TransferAssetContract".toList, parameter := .obj flds }
      tx blk watch = .error DecodeErr.invalidValue ∧
    (∃ ev st, extractTRXTransfer emptyValueTRXContract tx blk watch = .ok (some ev, st) ∧
      ev.source = [] ∧ ev.destination = [] ∧ ev.amount = 0) ∧
    (extractTransfers cfg
      { txID := txid
        contracts := [{ type := "TransferContract".toList, parameter := p },
          mkTRXContract owner dst a] } blk watch).1.length = 1 := by
  have hv2 : (jLookup flds ['v', 'a', 'l', 'u', 'e']).bind JValue.asObj? = none := hv
  refine ⟨?_, ?_, ?_, ?_, ⟨_, _, rfl, rfl, rfl, by simp [jNum, jLookup]⟩, ?_⟩
  · simp [extractTRXTransfer, hp]
  · simp [extractTRXTransfer, JValue.asObj?, hv2]
  · simp [extractTRC10Transfer, hp]
  · simp [extractTRC10Transfer, JValue.asObj?, hv2]
  · have hbad : extractTransferFromContract cfg
        { type := "TransferContract".toList, parameter := p }
        { txID := txid
          contracts := [{ type := "TransferContract".toList, parameter := p },
            mkTRXContract owner dst a] } blk watch = .error DecodeErr.invalidParam := by
      rw [extractFromContract_trxType]
      simp [extractTRXTransfer, hp]
    have hgood : extractTransferFromContract cfg (mkTRXContract owner dst a)
        { txID := txid
          contracts := [{ type := "TransferContract".toList, parameter := p },
            mkTRXContract owner dst a] } blk watch =
        extractTRXTransfer (mkTRXContract owner dst a)
          { txID := txid
            contracts := [{ type := "TransferContract".toList, parameter := p },
              mkTRXContract owner dst a] } blk watch := rfl
    simp only [extractTransfers, List.isEmpty_cons, List.foldl_cons, List.foldl_nil,
      hbad, hgood, extractTRX_mk]
    simp

/-- Witness for C5 at concrete inputs: a null parameters payload, an empty parameters
object, the empty-value contract, and a two-contract transaction. -/
theorem c5_witness :
    extractTRXTransfer { type := "TransferContract".toList, parameter := JValue.null }
      txEx blkEx noWatch = .error DecodeErr.invalidParam ∧
    extractTRXTransfer { type := "TransferContract".toList, parameter := JValue.obj [] }
      txEx blkEx noWatch = .error DecodeErr.invalidValue ∧
    extractTRC10Transfer { type := "TransferAssetContract".toList, parameter := JValue.null }
      txEx blkEx noWatch = .error DecodeErr.invalidParam ∧
    extractTRC10Transfer { type := "TransferAssetContract".toList, parameter := JValue.obj [] }
      txEx blkEx noWatch = .error DecodeErr.invalidValue ∧
    (∃ ev st, extractTRXTransfer emptyValueTRXContract txEx blkEx noWatch =
      .ok (some ev, st) ∧ ev.source = [] ∧ ev.destination = [] ∧ ev.amount = 0) ∧
    (extractTransfers cfgEx
      { txID := "t2".toList
        contracts := [{ type := "TransferContract".toList, parameter := JValue.null },
          mkTRXContract "o".toList "d".toList 3] } blkEx noWatch).1.length = 1 :=
  c5_amended_parameter_validation txEx blkEx noWatch JValue.null rfl [] rfl cfgEx
    "t2".toList "o".toList "d".toList 3

/-- Claim C4: an AssetTransfer or SmartContractTrigger transfer whose endpoints are both
outside the watch set yields no event and no statistics update, while a NativeTransfer
event is produced regardless of watch-set membership. -/
theorem c4_watch_filtering (cfg : Config) (tx : Transaction) (blk : BlockData)
    (watch : Str → Bool)
    (o10 t10 : Str) (a10 : ℚ) (asset : Str)
    (h10o : watch (convertHexToBase58 o10) = false)
    (h10t : watch (convertHexToBase58 t10) = false)
    (o20 c20 data20 : Str) (tev : TransferEvent)
    (h20p : parseTRC20TransferData cfg data20 (convertHexToBase58 o20)
      (convertHexToBase58 c20) tx blk (isUSDTContract cfg (convertHexToBase58 c20)) =
      .ok (some tev))
    (h20s : watch tev.source = false) (h20d : watch tev.destination = false)
    (oX tX : Str) (aX : ℚ) :
    extractTRC10Transfer (mkTRC10Contract o10 t10 a10 asset) tx blk watch =
      .ok (none, []) ∧
    extractTRC20Transfer cfg (mkTRC20Contract o20 c20 data20) tx blk watch =
      .ok (none, []) ∧
    ∃ ev st, extractTRXTransfer (mkTRXContract oX tX aX) tx blk watch =
      .ok (some ev, st) := by
  refine ⟨?_, ?_, ⟨_, _, extractTRX_mk oX tX aX tx blk watch⟩⟩
  · rw [extractTRC10_mk, if_pos ⟨h10o, h10t⟩]
  · rw [extractTRC20_mk]
    by_cases hc : isUSDTContract cfg (convertHexToBase58 c20) = true ∧
        cfg.usdtEnableMonitoring = false
    · rw [if_pos hc]
    · rw [if_neg hc, h20p]
      exact if_pos ⟨h20s, h20d⟩

set_option maxRecDepth 200000 in
/-- Witness for C4 at concrete inputs: an unwatched TRC10 transfer, an unwatched TRC20
transfer of `dataEx`, and a TRX transfer under the empty watch set. -/
theorem c4_witness :
    extractTRC10Transfer (mkTRC10Contract "o1".toList "t1".toList 2 "as".toList) txEx
      blkEx noWatch = .ok (none, []) ∧
    extractTRC20Transfer cfgEx (mkTRC20Contract [] [] dataEx) txEx blkEx noWatch =
      .ok (none, []) ∧
    ∃ ev st, extractTRXTransfer (mkTRXContract "ox".toList "tx".toList 4) txEx blkEx
      noWatch = .ok (some ev, st) :=
  c4_watch_filtering cfgEx txEx blkEx noWatch "o1".toList "t1".toList 2 "as".toList rfl
    rfl [] [] dataEx evEx (by decide) rfl rfl "ox".toList "tx".toList 4

/-- Claim C2: with lastProcessedHeight 100 and a fetched head at height 115, no ceiling or
floor blocking it and every per-height fetch succeeding, one monitor tick enqueues exactly
the blocks at heights 106..115 (the 10-height clamp window), never heights 101..105, and
afterwards sets lastProcessedHeight to 115. -/
theorem c2_gap_recovery (cfg : Config) (st : MonitorSt) (head : BlockData)
    (fetch : Int → Option BlockData) (blk : Int → BlockData)
    (hlast : st.lastProcessedBlock = 100) (hh : head.height = 115)
    (hmax : ¬(cfg.maxBlockHeight > 0 ∧ (115 : Int) > cfg.maxBlockHeight))
    (hmin : ¬(cfg.startBlockHeight > 0 ∧ (115 : Int) < cfg.startBlockHeight))
    (hf : ∀ h : Int, fetch h = some (blk h)) (hbh : ∀ h : Int, (blk h).height = h) :
    (processLatestBlock cfg st head fetch).2.map BlockData.height =
      [106, 107, 108, 109, 110, 111, 112, 113, 114, 115] ∧
    (processLatestBlock cfg st head fetch).1.lastProcessedBlock = 115 ∧
    ∀ h : Int, 101 ≤ h → h ≤ 105 →
      h ∉ (processLatestBlock cfg st head fetch).2.map BlockData.height := by
  have hr : intRange 106 115 = [106, 107, 108, 109, 110, 111, 112, 113, 114, 115] := by
    decide
  unfold processLatestBlock
  rw [hlast, hh]
  rw [if_neg (by norm_num : ¬((115 : Int) ≤ 100))]
  rw [if_neg hmax, if_neg hmin]
  simp only []
  rw [if_pos (by norm_num : (100 : Int) + 1 < 115)]
  rw [if_pos (by norm_num : (115 : Int) - (100 + 1) + 1 > 10)]
  norm_num
  rw [hr]
  simp [hf, hbh]
  intro h h1 h2 x
  refine ⟨fun he => ?_, fun he => ?_, fun he => ?_, fun he => ?_, fun he => ?_,
    fun he => ?_, fun he => ?_, fun he => ?_, fun he => ?_, fun he => ?_⟩ <;>
    (subst he; rw [hbh]; omega)

/-- Witness for C2 at a concrete state, head, and always-succeeding fetch. -/
theorem c2_witness :
    (processLatestBlock cfgEx { lastProcessedBlock := 100, processedBlocks := 0 }
      { height := 115, timestamp := 9 }
      (fun h => some { height := h, timestamp := 0 })).2.map BlockData.height =
      [106, 107, 108, 109, 110, 111, 112, 113, 114, 115] ∧
    (processLatestBlock cfgEx { lastProcessedBlock := 100, processedBlocks := 0 }
      { height := 115, timestamp := 9 }
      (fun h => some { height := h, timestamp := 0 })).1.lastProcessedBlock = 115 :=
  ⟨(c2_gap_recovery cfgEx { lastProcessedBlock := 100, processedBlocks := 0 }
      { height := 115, timestamp := 9 } (fun h => some { height := h, timestamp := 0 })
      (fun h => { height := h, timestamp := 0 }) rfl rfl (by decide) (by decide)
      (fun _ => rfl) (fun _ => rfl)).1,
   (c2_gap_recovery cfgEx { lastProcessedBlock := 100, processedBlocks := 0 }
      { height := 115, timestamp := 9 } (fun h => some { height := h, timestamp := 0 })
      (fun h => { height := h, timestamp := 0 }) rfl rfl (by decide) (by decide)
      (fun _ => rfl) (fun _ => rfl)).2.1⟩

/-- `startsWith` holds on any extension of the pattern itself. -/
theorem startsWith_append_self (p s : Str) : startsWith p (p ++ s) = true := by
  induction p with
  | nil => rfl
  | cons c cs ih => simp [startsWith, ih]

/-- Leading zero padding is removed by the zero-trimming pass. -/
theorem dropWhile_zero_replicate (n : Nat) (l : Str) :
    (List.replicate n '0' ++ l).dropWhile (· == '0') = l.dropWhile (· == '0') := by
  induction n with
  | zero => rfl
  | succ n _ => simp [List.replicate_succ]

/-- The zero-prefix of a string is a replicate of zeros. -/
theorem takeWhile_zero_eq_replicate (l : Str) :
    l.takeWhile (· == '0') = List.replicate (l.takeWhile (· == '0')).length '0' := by
  rw [List.eq_replicate_length]
  intro b hb
  have := List.mem_takeWhile_imp hb
  exact eq_of_beq this

/-- Trimming zeros then left-padding back to 40 chars restores a 40-char string. -/
theorem pad_trim (t : Str) (ht : t.length = 40) :
    (if (t.dropWhile (· == '0')).length < 40 then
      List.replicate (40 - (t.dropWhile (· == '0')).length) '0' ++ t.dropWhile (· == '0')
    else t.dropWhile (· == '0')) = t := by
  have hsplit : t.takeWhile (· == '0') ++ t.dropWhile (· == '0') = t :=
    List.takeWhile_append_dropWhile (· == '0') t
  have hlen : (t.takeWhile (· == '0')).length + (t.dropWhile (· == '0')).length = 40 := by
    rw [← List.length_append, hsplit, ht]
  by_cases hc : (t.dropWhile (· == '0')).length < 40
  · rw [if_pos hc]
    have hk : 40 - (t.dropWhile (· == '0')).length = (t.takeWhile (· == '0')).length := by
      omega
    rw [hk, ← takeWhile_zero_eq_replicate, hsplit]
  · rw [if_neg hc]
    have h0 : (t.takeWhile (· == '0')).length = 0 := by omega
    have hnil := List.eq_nil_of_length_eq_zero h0
    conv_rhs => rw [← hsplit, hnil, List.nil_append]

/-- Leading zeros do not change the big-endian value. -/
theorem hexValue_zero_replicate_append (n : Nat) (l : Str) :
    hexValue (List.replicate n '0' ++ l) = hexValue l := by
  unfold hexValue
  induction n with
  | zero => rfl
  | succ n ih => simpa [List.replicate_succ, hexVal, hexDigitVal?] using ih

/-- Trimming leading zeros does not change the big-endian value. -/
theorem hexValue_dropWhile_zero (l : Str) :
    hexValue (l.dropWhile (· == '0')) = hexValue l := by
  conv_rhs => rw [← List.takeWhile_append_dropWhile (· == '0') l,
    takeWhile_zero_eq_replicate l, hexValue_zero_replicate_append]

/-- The ParseUint digit loop succeeds on all-hex input and computes the folded value. -/
theorem hexNatAux_all_hex (l : Str) (acc : Nat)
    (hl : ∀ c ∈ l, (hexDigitVal? c).isSome) :
    hexNatAux acc l = some (l.foldl (fun a c => 16 * a + hexVal c) acc) := by
  induction l generalizing acc with
  | nil => rfl
  | cons c cs ih =>
    have hc := hl c (by simp)
    obtain ⟨d, hd⟩ := Option.isSome_iff_exists.mp hc
    simp only [hexNatAux, hd]
    rw [ih _ (fun x hx => hl x (by simp [hx]))]
    simp [List.foldl_cons, hexVal, hd]

/-- parseHexAmount on an all-hex string below 2^64 returns its big-endian value. -/
theorem parseHexAmount_all_hex (l : Str) (hl : ∀ c ∈ l, (hexDigitVal? c).isSome)
    (hv : hexValue l < 18446744073709551616) :
    parseHexAmount l = .ok ((hexValue l : ℚ)) := by
  unfold parseHexAmount
  by_cases he : l.dropWhile (· == '0') = []
  · rw [if_pos he]
    have h0 : hexValue l = 0 := by
      rw [← hexValue_dropWhile_zero, he]
      rfl
    rw [h0]
    norm_num
  · rw [if_neg he]
    have hall : ∀ c ∈ l.dropWhile (· == '0'), (hexDigitVal? c).isSome := fun c hc =>
      hl c ((List.dropWhile_sublist (· == '0')).subset hc)
    have hsome : hexNat? (l.dropWhile (· == '0')) =
        some (hexValue (l.dropWhile (· == '0'))) :=
      hexNatAux_all_hex _ 0 hall
    rw [hsome, hexValue_dropWhile_zero]
    simp [hv]

/-- Claim C1 amended: for data = a9059cbb + pad64(destHex) + pad64(amountHex) where the
first argument fits in its low 20 bytes and the amount argument is all-hex with value below
2^64, decoding yields destination = codec(41 ++ low 20 bytes of the first argument) and
amount = amountHex read as a big-endian unsigned integer, divided by 10^decimals exactly
when the contract address equals the configured tracked-stablecoin contract. -/
theorem c1_amended_trc20_decode (cfg : Config) (destHex amountHex owner caddr : Str)
    (tx : Transaction) (blk : BlockData)
    (hdLen : destHex.length ≤ 64) (haLen : amountHex.length ≤ 64)
    (hdTop : (pad64 destHex).take 24 = List.replicate 24 '0')
    (haHex : ∀ c ∈ amountHex, (hexDigitVal? c).isSome)
    (haVal : hexValue amountHex < 2 ^ 64) :
    ∃ ev, parseTRC20TransferData cfg
        ("a9059cbb".toList ++ pad64 destHex ++ pad64 amountHex) owner caddr tx blk
        (isUSDTContract cfg caddr) = .ok (some ev) ∧
      ev.destination = convertHexToBase58 ('4' :: '1' :: (pad64 destHex).drop 24) ∧
      ev.amount = (if isUSDTContract cfg caddr then
          (hexValue amountHex : ℚ) / 10 ^ cfg.usdtDecimals
        else (hexValue amountHex : ℚ)) ∧
      ev.source = convertHexToBase58 owner ∧
      ev.isUSDT = isUSDTContract cfg caddr := by
  have hsel : ("a9059cbb".toList).length = 8 := by decide
  have hP : (pad64 destHex).length = 64 := by
    simp [pad64]
    omega
  have hA : (pad64 amountHex).length = 64 := by
    simp [pad64]
    omega
  have hassoc : "a9059cbb".toList ++ pad64 destHex ++ pad64 amountHex =
      "a9059cbb".toList ++ (pad64 destHex ++ pad64 amountHex) :=
    List.append_assoc _ _ _
  have hlen : ("a9059cbb".toList ++ pad64 destHex ++ pad64 amountHex).length = 136 := by
    rw [List.append_assoc, List.length_append, List.length_append, hsel, hP, hA]
  have hsw : startsWith "a9059cbb".toList
      ("a9059cbb".toList ++ pad64 destHex ++ pad64 amountHex) = true := by
    rw [hassoc]
    exact startsWith_append_self _ _
  have hdrop8 : ("a9059cbb".toList ++ pad64 destHex ++ pad64 amountHex).drop 8 =
      pad64 destHex ++ pad64 amountHex := by
    rw [hassoc]
    exact List.drop_left' hsel
  have htake64 : (pad64 destHex ++ pad64 amountHex).take 64 = pad64 destHex :=
    List.take_left' hP
  have hdrop64 : (pad64 destHex ++ pad64 amountHex).drop 64 = pad64 amountHex :=
    List.drop_left' hP
  have htakeA : (pad64 amountHex).take 64 = pad64 amountHex := by
    conv_lhs => rw [← hA]
    exact List.take_length _
  have hAhex : ∀ c ∈ pad64 amountHex, (hexDigitVal? c).isSome := by
    intro c hc
    rw [pad64] at hc
    rcases List.mem_append.mp hc with h | h
    · have := List.eq_of_mem_replicate h
      subst this
      decide
    · exact haHex c h
  have hAval : hexValue (pad64 amountHex) = hexValue amountHex := by
    rw [pad64]
    exact hexValue_zero_replicate_append _ _
  have haVal2 : hexValue amountHex < 18446744073709551616 := by
    have h2 : (2 : Nat) ^ 64 = 18446744073709551616 := by norm_num
    rw [h2] at haVal
    exact haVal
  have hpa : parseHexAmount (pad64 amountHex) = .ok ((hexValue amountHex : ℚ)) := by
    have := parseHexAmount_all_hex (pad64 amountHex) hAhex (by rw [hAval]; exact haVal2)
    rw [this, hAval]
  have hPsplit : pad64 destHex = List.replicate 24 '0' ++ (pad64 destHex).drop 24 := by
    conv_lhs => rw [← List.take_append_drop 24 (pad64 destHex)]
    rw [hdTop]
  have hlow : ((pad64 destHex).drop 24).length = 40 := by
    rw [List.length_drop, hP]
  have hdw : (pad64 destHex).dropWhile (· == '0') =
      ((pad64 destHex).drop 24).dropWhile (· == '0') := by
    conv_lhs => rw [hPsplit]
    exact dropWhile_zero_replicate _ _
  have hpad := pad_trim ((pad64 destHex).drop 24) hlow
  have hc1 : ¬(("a9059cbb".toList ++ pad64 destHex ++ pad64 amountHex).length < 74 ∨
      startsWith "a9059cbb".toList
        ("a9059cbb".toList ++ pad64 destHex ++ pad64 amountHex) = false) := by
    rw [hlen, hsw]
    norm_num
  unfold parseTRC20TransferData
  simp only []
  rw [if_neg hc1]
  rw [if_neg (by rw [hlen]; norm_num)]
  rw [hdrop8]
  rw [if_neg (by rw [List.length_append, hP, hA]; norm_num)]
  rw [htake64, hdrop64]
  rw [if_neg (by rw [hA]; norm_num)]
  rw [htakeA, hdw, hpad, hpa]
  exact ⟨_, rfl, rfl, rfl, rfl, rfl⟩

/-- Witness for C1 at the concrete 20-byte destination `destHexEx` and amount 0xf4240. -/
theorem c1_witness :
    ∃ ev, parseTRC20TransferData cfgEx
        ("a9059cbb".toList ++ pad64 destHexEx ++ pad64 "f4240".toList) [] [] txEx blkEx
        (isUSDTContract cfgEx []) = .ok (some ev) ∧
      ev.destination = convertHexToBase58 ('4' :: '1' :: (pad64 destHexEx).drop 24) ∧
      ev.amount = (if isUSDTContract cfgEx [] then
          (hexValue "f4240".toList : ℚ) / 10 ^ cfgEx.usdtDecimals
        else (hexValue "f4240".toList : ℚ)) ∧
      ev.source = convertHexToBase58 [] ∧
      ev.isUSDT = isUSDTContract cfgEx [] :=
  c1_amended_trc20_decode cfgEx destHexEx "f4240".toList [] [] txEx blkEx (by decide)
    (by decide) (by decide) (by decide) (by decide)

set_option maxRecDepth 200000 in
/-- Claim C1 counterexample: with an amount argument of exactly 2^64 (17 significant hex
digits), decoding returns an error and no event, where the claim promises an event whose
amount is the big-endian reading of amountHex. -/
theorem c1_counterexample :
    parseTRC20TransferData cfgEx dataC1cex [] [] txEx blkEx false =
      .error DecodeErr.amountParse ∧
    hexValue (pad64 "10000000000000000".toList) = 2 ^ 64 :=
  ⟨rfl, by decide⟩

end Tron
